import Mathlib

set_option maxRecDepth 100000

/-!
Shallow embedding of `create_rtp_pcap.py` (rvoip,
`crates/session-core/examples/sipp_tests/scripts/create_rtp_pcap.py`).

The script builds a PCAP file: a 24-byte global header followed by 50
records, each a 16-byte record header plus an Ethernet/IP/UDP/RTP frame
carrying a synthesized G.711A-like payload.

Bytes are modelled as `Nat` values (each produced byte is `< 256`).
Python's `struct.pack` raises `struct.error` when a field value is out of
range for its format code; we model that by `Option`: `packB` is format
`B` (one unsigned byte), `packBE16`/`packBE32` are `!H`/`!L` (big endian),
`packLE16`/`packLE32` are `<H`/`<L` (little endian).  Python integers are
modelled by `Int`.
-/

/-- Big-endian byte split of a `Nat` into 2 bytes (format `!H`). -/
def beB16 (n : Nat) : List Nat := [n / 256 % 256, n % 256]

/-- Big-endian byte split of a `Nat` into 4 bytes (format `!L`). -/
def beB32 (n : Nat) : List Nat :=
  [n / 16777216 % 256, n / 65536 % 256, n / 256 % 256, n % 256]

/-- Little-endian byte split of a `Nat` into 2 bytes (format `<H`). -/
def leB16 (n : Nat) : List Nat := [n % 256, n / 256 % 256]

/-- Little-endian byte split of a `Nat` into 4 bytes (format `<L`). -/
def leB32 (n : Nat) : List Nat :=
  [n % 256, n / 256 % 256, n / 65536 % 256, n / 16777216 % 256]

/-- `struct.pack('B', n)`: one unsigned byte, errors outside `[0, 255]`. -/
def packB (n : Int) : Option (List Nat) :=
  if 0 ≤ n ∧ n < 256 then some [n.toNat] else none

/-- `struct.pack('!H', n)`: big-endian 16-bit, errors outside `[0, 65535]`. -/
def packBE16 (n : Int) : Option (List Nat) :=
  if 0 ≤ n ∧ n < 65536 then some (beB16 n.toNat) else none

/-- `struct.pack('!L', n)`: big-endian 32-bit, errors outside `[0, 2^32)`. -/
def packBE32 (n : Int) : Option (List Nat) :=
  if 0 ≤ n ∧ n < 4294967296 then some (beB32 n.toNat) else none

/-- `struct.pack('<H', n)`: little-endian 16-bit, errors outside `[0, 65535]`. -/
def packLE16 (n : Int) : Option (List Nat) :=
  if 0 ≤ n ∧ n < 65536 then some (leB16 n.toNat) else none

/-- `struct.pack('<L', n)`: little-endian 32-bit, errors outside `[0, 2^32)`. -/
def packLE32 (n : Int) : Option (List Nat) :=
  if 0 ≤ n ∧ n < 4294967296 then some (leB32 n.toNat) else none

/-- Read a big-endian 16-bit field at byte offset `off`. -/
def readBE16 (bs : List Nat) (off : Nat) : Nat :=
  256 * bs.getD off 0 + bs.getD (off + 1) 0

/-- Read a big-endian 32-bit field at byte offset `off`. -/
def readBE32 (bs : List Nat) (off : Nat) : Nat :=
  16777216 * bs.getD off 0 + 65536 * bs.getD (off + 1) 0 +
    256 * bs.getD (off + 2) 0 + bs.getD (off + 3) 0

/-- Read a little-endian 32-bit field at byte offset `off`. -/
def readLE32 (bs : List Nat) (off : Nat) : Nat :=
  bs.getD off 0 + 256 * bs.getD (off + 1) 0 +
    65536 * bs.getD (off + 2) 0 + 16777216 * bs.getD (off + 3) 0

/-- `create_pcap_header()`: `struct.pack('<LHHLLLL', 0xa1b2c3d4, 2, 4, 0, 0,
65535, 1)` — PCAP global header. -/
def create_pcap_header : Option (List Nat) :=
  (packLE32 0xa1b2c3d4).bind fun magic =>
    (packLE16 2).bind fun vmaj =>
      (packLE16 4).bind fun vmin =>
        (packLE32 0).bind fun thiszone =>
          (packLE32 0).bind fun sigfigs =>
            (packLE32 65535).bind fun snaplen =>
              (packLE32 1).bind fun network =>
                some (magic ++ vmaj ++ vmin ++ thiszone ++ sigfigs ++
                  snaplen ++ network)

/-- `create_ethernet_header()`: dst MAC ++ src MAC ++ EtherType 0x0800. -/
def create_ethernet_header : List Nat :=
  [0x00, 0x01, 0x02, 0x03, 0x04, 0x05] ++
    [0x00, 0x0a, 0x0b, 0x0c, 0x0d, 0x0e] ++
    [0x08, 0x00]

/-- `create_ip_header(payload_length)`: `struct.pack('!BBHHHBBH4s4s', ...)`
with `total_length = 20 + 8 + 12 + payload_length`. -/
def create_ip_header (payload_length : Nat) : Option (List Nat) :=
  let total_length := 20 + 8 + 12 + payload_length
  (packB 0x45).bind fun verihl =>
    (packB 0).bind fun dscp =>
      (packBE16 (total_length : Int)).bind fun tl =>
        (packBE16 0x1234).bind fun ident =>
          (packBE16 0).bind fun frag =>
            (packB 64).bind fun ttl =>
              (packB 17).bind fun proto =>
                (packBE16 0).bind fun chksum =>
                  some (verihl ++ dscp ++ tl ++ ident ++ frag ++ ttl ++
                    proto ++ chksum ++ [127, 0, 0, 1] ++ [127, 0, 0, 1])

/-- `create_udp_header(payload_length)`: `struct.pack('!HHHH', 12345, 6000,
8 + 12 + payload_length, 0)`. -/
def create_udp_header (payload_length : Nat) : Option (List Nat) :=
  let udp_length := 8 + 12 + payload_length
  (packBE16 12345).bind fun sport =>
    (packBE16 6000).bind fun dport =>
      (packBE16 (udp_length : Int)).bind fun len =>
        (packBE16 0).bind fun chksum =>
          some (sport ++ dport ++ len ++ chksum)

/-- `create_rtp_header(seq_num, timestamp, ssrc=0x12345678)`:
`struct.pack('!BBHLL', 0x80, 8, seq_num, timestamp, ssrc)`.  The default
`ssrc` argument is supplied explicitly at the call site. -/
def create_rtp_header (seq_num timestamp ssrc : Int) : Option (List Nat) :=
  (packB 0x80).bind fun flags =>
    (packB 8).bind fun mpt =>
      (packBE16 seq_num).bind fun sq =>
        (packBE32 timestamp).bind fun ts =>
          (packBE32 ssrc).bind fun sc =>
            some (flags ++ mpt ++ sq ++ ts ++ sc)

/-- One sample of `generate_g711a_audio`, as a function of its position.
The source computes `sample = int(127 * (1 + 0.8 * ((i % 18) - 9) / 9))`
then `max(0, min(255, sample))`.  With `j = i % 18` the exact value is
`127 * (9 + 4*j) / 45` (since `1 + (4/5)*(j-9)/9 = (9 + 4*j)/45`), which is
positive for every `j`, and IEEE double evaluation of the source expression
truncates to the same integer for each of the 18 residues (every exact
value stays more than 0.02 away from an integer, far above the rounding
error), so the `Nat`-division form below is an exact embedding. -/
def g711aByte (i : Nat) : Nat :=
  max 0 (min 255 (127 * (9 + 4 * (i % 18)) / 45))

/-- `generate_g711a_audio(duration_ms=20)`: a byte per sample,
`int(8000 * duration_ms / 1000)` samples (the default argument 20 is
supplied explicitly at the call site). -/
def generate_g711a_audio (duration_ms : Nat) : List Nat :=
  let samples_per_packet := 8000 * duration_ms / 1000
  (List.range samples_per_packet).map g711aByte

/-- `create_pcap_record(packet_data, timestamp_sec, timestamp_usec)`:
`struct.pack('<LLLL', sec, usec, len(packet_data), len(packet_data))`
followed by `packet_data`. -/
def create_pcap_record (packet_data : List Nat)
    (timestamp_sec timestamp_usec : Int) : Option (List Nat) :=
  (packLE32 timestamp_sec).bind fun sec =>
    (packLE32 timestamp_usec).bind fun usec =>
      (packLE32 (packet_data.length : Int)).bind fun incl =>
        (packLE32 (packet_data.length : Int)).bind fun orig =>
          some (sec ++ usec ++ incl ++ orig ++ packet_data)

/-- One iteration of the loop in `main()`: builds the payload and the four
stacked headers for iteration `seq_num`, and wraps them in a PCAP record
with `timestamp_sec = base + seq_num*20000 // 10^6` and
`timestamp_usec = seq_num*20000 % 10^6`. -/
def mainRecord (base_timestamp rtp_timestamp : Int) (seq_num : Nat) :
    Option (List Nat) :=
  let audio_payload := generate_g711a_audio 20
  (create_ip_header audio_payload.length).bind fun ip =>
    (create_udp_header audio_payload.length).bind fun udp =>
      (create_rtp_header ((seq_num : Int) + 1000) rtp_timestamp
          0x12345678).bind fun rtp =>
        let packet := create_ethernet_header ++ ip ++ udp ++ rtp ++
          audio_payload
        let packet_time_usec := seq_num * 20000
        let timestamp_sec : Int :=
          base_timestamp + ((packet_time_usec / 1000000 : Nat) : Int)
        let timestamp_usec : Int := ((packet_time_usec % 1000000 : Nat) : Int)
        create_pcap_record packet timestamp_sec timestamp_usec

/-- The `for seq_num in range(50)` loop of `main()`, with `k` iterations
remaining, current iteration index `seq_num`, and the running
`rtp_timestamp` accumulator (incremented by 160 after each record, as in
the source).  Returns the list of emitted records. -/
def mainGo (base_timestamp rtp_timestamp : Int) (seq_num : Nat) :
    Nat → Option (List (List Nat))
  | 0 => some []
  | k + 1 =>
    (mainRecord base_timestamp rtp_timestamp seq_num).bind fun record =>
      (mainGo base_timestamp (rtp_timestamp + 160) (seq_num + 1) k).bind
        fun rest => some (record :: rest)

/-- The 50 records written by `main()`, given the run's base wall-clock
timestamp `base_timestamp = int(time.time())`. -/
def mainRecords (base_timestamp : Int) : Option (List (List Nat)) :=
  mainGo base_timestamp 0 0 50

/-- The full byte content of `pcap/g711a.pcap` as written by `main()`:
global header then the 50 records in order. -/
def pcapFile (base_timestamp : Int) : Option (List Nat) :=
  create_pcap_header.bind fun hdr =>
    (mainRecords base_timestamp).bind fun recs =>
      some (hdr ++ recs.flatten)

/-- The 20-byte IP header emitted for the 160-byte default payload. -/
def ipBytes160 : List Nat :=
  [0x45, 0, 0, 200, 0x12, 0x34, 0, 0, 64, 17, 0, 0,
   127, 0, 0, 1, 127, 0, 0, 1]

/-- The 8-byte UDP header emitted for the 160-byte default payload. -/
def udpBytes160 : List Nat := [48, 57, 23, 112, 0, 180, 0, 0]

/-- The 12-byte RTP header emitted at loop iteration `s`. -/
def rtpBytes (s : Nat) : List Nat :=
  [0x80, 8] ++ beB16 (s + 1000) ++ beB32 (160 * s) ++ beB32 0x12345678

/-- The 214-byte Ethernet/IP/UDP/RTP/payload frame of loop iteration `s`. -/
def packetBytes (s : Nat) : List Nat :=
  create_ethernet_header ++ ipBytes160 ++ udpBytes160 ++ rtpBytes s ++
    generate_g711a_audio 20

/-- The full 230-byte PCAP record of loop iteration `s` for a run whose
base timestamp is `base` (with `0 ≤ base < 2^32` and `s < 50`). -/
def recBytes (base : Int) (s : Nat) : List Nat :=
  leB32 base.toNat ++ leB32 (s * 20000) ++ leB32 214 ++ leB32 214 ++
    packetBytes s

/-! ### Characterization lemmas -/

lemma packBE16_nat (n : Nat) (h : n < 65536) : packBE16 n = some (beB16 n) := by
  have h1 : (0 : Int) ≤ n := Int.natCast_nonneg n
  have h2 : (n : Int) < 65536 := by exact_mod_cast h
  simp [packBE16, h1, h2]

lemma packBE32_nat (n : Nat) (h : n < 4294967296) :
    packBE32 n = some (beB32 n) := by
  have h1 : (0 : Int) ≤ n := Int.natCast_nonneg n
  have h2 : (n : Int) < 4294967296 := by exact_mod_cast h
  simp [packBE32, h1, h2]

lemma packLE32_nat (n : Nat) (h : n < 4294967296) :
    packLE32 n = some (leB32 n) := by
  have h1 : (0 : Int) ≤ n := Int.natCast_nonneg n
  have h2 : (n : Int) < 4294967296 := by exact_mod_cast h
  simp [packLE32, h1, h2]

lemma packLE32_int (n : Int) (h0 : 0 ≤ n) (h1 : n < 4294967296) :
    packLE32 n = some (leB32 n.toNat) := by
  simp [packLE32, h0, h1]

lemma payload20_length : (generate_g711a_audio 20).length = 160 := by decide

lemma create_ip_header_160 : create_ip_header 160 = some ipBytes160 := by
  decide

lemma create_udp_header_160 : create_udp_header 160 = some udpBytes160 := by
  decide

lemma create_rtp_header_eq (s : Nat) (hs : s < 50) :
    create_rtp_header ((s : Int) + 1000) (160 * (s : Int)) 0x12345678 =
      some (rtpBytes s) := by
  have e1 : (s : Int) + 1000 = ((s + 1000 : Nat) : Int) := by push_cast; ring
  have e2 : (160 : Int) * (s : Int) = ((160 * s : Nat) : Int) := by
    push_cast; ring
  have hsq : packBE16 ((s : Int) + 1000) = some (beB16 (s + 1000)) := by
    rw [e1]; exact packBE16_nat _ (by omega)
  have hts : packBE32 (160 * (s : Int)) = some (beB32 (160 * s)) := by
    rw [e2]; exact packBE32_nat _ (by omega)
  rw [create_rtp_header, show packB 0x80 = some [0x80] from by decide,
    show packB 8 = some [8] from by decide, hsq, hts,
    show packBE32 0x12345678 = some (beB32 0x12345678) from by decide]
  rfl

lemma packetBytes_length (s : Nat) : (packetBytes s).length = 214 := by
  simp [packetBytes, rtpBytes, create_ethernet_header, ipBytes160,
    udpBytes160, beB16, beB32, payload20_length]

lemma create_pcap_record_eq (base : Int) (h0 : 0 ≤ base)
    (h1 : base < 4294967296) (s : Nat) (hs : s < 50) :
    create_pcap_record (packetBytes s)
        (base + ((s * 20000 / 1000000 : Nat) : Int))
        ((s * 20000 % 1000000 : Nat) : Int) =
      some (recBytes base s) := by
  have d1 : s * 20000 / 1000000 = 0 := by omega
  have d2 : s * 20000 % 1000000 = s * 20000 := by omega
  have hsec : packLE32 (base + ((s * 20000 / 1000000 : Nat) : Int)) =
      some (leB32 base.toNat) := by
    rw [d1]
    simpa using packLE32_int base h0 h1
  have husec : packLE32 ((s * 20000 % 1000000 : Nat) : Int) =
      some (leB32 (s * 20000)) := by
    rw [d2]; exact packLE32_nat _ (by omega)
  have hlen : packLE32 ((packetBytes s).length : Int) = some (leB32 214) := by
    rw [packetBytes_length]; exact packLE32_nat 214 (by omega)
  rw [create_pcap_record, hsec, husec, hlen]
  rfl

lemma mainRecord_eq (base : Int) (h0 : 0 ≤ base) (h1 : base < 4294967296)
    (s : Nat) (hs : s < 50) :
    mainRecord base (160 * (s : Int)) s = some (recBytes base s) := by
  rw [mainRecord]
  rw [payload20_length, create_ip_header_160, create_udp_header_160]
  rw [Option.some_bind, Option.some_bind, create_rtp_header_eq s hs,
    Option.some_bind]
  exact create_pcap_record_eq base h0 h1 s hs

lemma mainGo_eq (base : Int) (h0 : 0 ≤ base) (h1 : base < 4294967296) :
    ∀ (k s : Nat), s + k ≤ 50 →
      mainGo base (160 * (s : Int)) s k =
        some ((List.range' s k).map (recBytes base)) := by
  intro k
  induction k with
  | zero => intro s _; simp [mainGo]
  | succ k ih =>
    intro s hs
    have hrec := mainRecord_eq base h0 h1 s (by omega)
    have hrest := ih (s + 1) (by omega)
    have e : 160 * (s : Int) + 160 = 160 * ((s + 1 : Nat) : Int) := by
      push_cast; ring
    rw [mainGo, hrec, Option.some_bind, e, hrest, Option.some_bind,
      List.range'_succ]
    rfl

lemma mainRecords_eq_of_range (base : Int) (h0 : 0 ≤ base)
    (h1 : base < 4294967296) :
    mainRecords base = some ((List.range 50).map (recBytes base)) := by
  have h := mainGo_eq base h0 h1 50 0 (by omega)
  simp only [Nat.cast_zero, mul_zero] at h
  rw [mainRecords, h, List.range_eq_range']

lemma mainGo_none (base rtp : Int) (s k : Nat) (hk : 0 < k)
    (h : mainRecord base rtp s = none) : mainGo base rtp s k = none := by
  cases k with
  | zero => omega
  | succ k => rw [mainGo, h]; rfl

lemma mainRecords_base_range (base : Int) (recs : List (List Nat))
    (h : mainRecords base = some recs) : 0 ≤ base ∧ base < 4294967296 := by
  by_contra hc
  have hn : packLE32 base = none := by rw [packLE32, if_neg hc]
  have h2 : mainRecord base 0 0 = none := by
    rw [mainRecord]
    rw [payload20_length, create_ip_header_160, create_udp_header_160]
    rw [Option.some_bind, Option.some_bind,
      show create_rtp_header ((0 : Nat) + 1000 : Int) 0 0x12345678 =
        some (rtpBytes 0) from by decide, Option.some_bind]
    rw [create_pcap_record,
      show base + ((0 * 20000 / 1000000 : Nat) : Int) = base from by
        norm_num,
      hn]
    rfl
  have h3 : mainRecords base = none := mainGo_none base 0 0 50 (by omega) h2
  rw [h3] at h
  exact Option.noConfusion h

lemma mainRecords_eq (base : Int) (recs : List (List Nat))
    (h : mainRecords base = some recs) :
    recs = (List.range 50).map (recBytes base) := by
  obtain ⟨h0, h1⟩ := mainRecords_base_range base recs h
  have := mainRecords_eq_of_range base h0 h1
  rw [h] at this
  exact Option.some.inj this

lemma getD_map_range (f : Nat → List Nat) (i : Nat) (h : i < 50) :
    ((List.range 50).map f).getD i [] = f i := by
  rw [List.getD_eq_getElem _ _ (by simpa using h)]
  simp

/-- The seconds field of the record header of `recBytes base s`, as the
little-endian recombination of the four bytes of `leB32 base.toNat`. -/
lemma readLE32_rec_sec (base : Int) (s : Nat) :
    readLE32 (recBytes base s) 0 =
      base.toNat % 256 + 256 * (base.toNat / 256 % 256) +
        65536 * (base.toNat / 65536 % 256) +
        16777216 * (base.toNat / 16777216 % 256) := rfl

/-- The microseconds field of the record header of `recBytes base s`, as
the little-endian recombination of the four bytes of
`leB32 (s * 20000)`. -/
lemma readLE32_rec_usec (base : Int) (s : Nat) :
    readLE32 (recBytes base s) 4 =
      s * 20000 % 256 + 256 * (s * 20000 / 256 % 256) +
        65536 * (s * 20000 / 65536 % 256) +
        16777216 * (s * 20000 / 16777216 % 256) := rfl

/-- Recombining the four little-endian base-256 digits of `n < 2^32`
gives back `n`. -/
lemma le32_decomp (n : Nat) (h : n < 4294967296) :
    n % 256 + 256 * (n / 256 % 256) + 65536 * (n / 65536 % 256) +
      16777216 * (n / 16777216 % 256) = n := by omega

/-! ### Claims -/

/-- C1: in every generated record the IP header's declared total-length
field (big-endian 16-bit at record offset 32) equals
`20 + 8 + 12 + len(payload)` and the UDP header's declared length field
(record offset 54) equals `8 + 12 + len(payload)`, where the payload is
the frame content after the four stacked headers (record offset 70); in
particular the first record's IP total-length field equals 200. -/
theorem claim_C1 (base : Int) (recs : List (List Nat))
    (h : mainRecords base = some recs) :
    (∀ r ∈ recs, readBE16 r 32 = 20 + 8 + 12 + (r.drop 70).length ∧
      readBE16 r 54 = 8 + 12 + (r.drop 70).length) ∧
    readBE16 (recs.getD 0 []) 32 = 200 := by
  have hr := mainRecords_eq base recs h
  subst hr
  refine ⟨?_, rfl⟩
  intro r hrmem
  obtain ⟨s, _, rfl⟩ := List.mem_map.1 hrmem
  exact ⟨rfl, rfl⟩

theorem claim_C1_witness :
    readBE16 (((List.range 50).map (recBytes 1700000000)).getD 0 []) 32 =
      200 :=
  (claim_C1 1700000000 _
    (mainRecords_eq_of_range 1700000000 (by norm_num) (by norm_num))).2

/-- C2: a run writes exactly 50 records; each record is the 16-byte record
header followed by exactly 214 bytes of frame data, and the record
header's captured-length field (offset 8) and original-length field
(offset 12) both equal the true byte length of the frame that follows. -/
theorem claim_C2 (base : Int) (recs : List (List Nat))
    (h : mainRecords base = some recs) :
    recs.length = 50 ∧ ∀ r ∈ recs, r.length = 16 + 214 ∧
      (r.drop 16).length = 214 ∧
      readLE32 r 8 = (r.drop 16).length ∧
      readLE32 r 12 = (r.drop 16).length := by
  have hr := mainRecords_eq base recs h
  subst hr
  refine ⟨by simp, ?_⟩
  intro r hrmem
  obtain ⟨s, _, rfl⟩ := List.mem_map.1 hrmem
  exact ⟨rfl, rfl, rfl, rfl⟩

theorem claim_C2_witness :
    ((List.range 50).map (recBytes 1700000000)).length = 50 :=
  (claim_C2 1700000000 _
    (mainRecords_eq_of_range 1700000000 (by norm_num) (by norm_num))).1

/-- C3: the RTP sequence numbers of the 50 records (big-endian 16-bit at
record offset 60), in write order, are `1000 + i` for record index `i`:
a strictly increasing arithmetic sequence with common difference 1
starting at 1000. -/
theorem claim_C3 (base : Int) (recs : List (List Nat))
    (h : mainRecords base = some recs) :
    recs.length = 50 ∧
      ∀ i, i < 50 → readBE16 (recs.getD i []) 60 = 1000 + i := by
  have hr := mainRecords_eq base recs h
  subst hr
  refine ⟨by simp, ?_⟩
  intro i hi
  rw [getD_map_range _ i hi]
  have hv : readBE16 (recBytes base i) 60 =
      256 * ((i + 1000) / 256 % 256) + (i + 1000) % 256 := rfl
  rw [hv]
  omega

theorem claim_C3_witness :
    readBE16 (((List.range 50).map (recBytes 1700000000)).getD 3 []) 60 =
      1000 + 3 :=
  (claim_C3 1700000000 _
    (mainRecords_eq_of_range 1700000000 (by norm_num) (by norm_num))).2 3
    (by norm_num)

/-- C4: the RTP timestamps of the 50 records (big-endian 32-bit at record
offset 62), in write order, are `160 * i` for record index `i`: a strictly
increasing arithmetic sequence with common difference 160 starting at 0. -/
theorem claim_C4 (base : Int) (recs : List (List Nat))
    (h : mainRecords base = some recs) :
    recs.length = 50 ∧
      ∀ i, i < 50 → readBE32 (recs.getD i []) 62 = 160 * i := by
  have hr := mainRecords_eq base recs h
  subst hr
  refine ⟨by simp, ?_⟩
  intro i hi
  rw [getD_map_range _ i hi]
  have hv : readBE32 (recBytes base i) 62 =
      16777216 * (160 * i / 16777216 % 256) +
        65536 * (160 * i / 65536 % 256) +
        256 * (160 * i / 256 % 256) + 160 * i % 256 := rfl
  have e1 : 160 * i / 16777216 = 0 := by omega
  have e2 : 160 * i / 65536 = 0 := by omega
  rw [hv, e1, e2]
  omega

theorem claim_C4_witness :
    readBE32 (((List.range 50).map (recBytes 1700000000)).getD 3 []) 62 =
      160 * 3 :=
  (claim_C4 1700000000 _
    (mainRecords_eq_of_range 1700000000 (by norm_num) (by norm_num))).2 3
    (by norm_num)

/-- C5: two runs that differ only in the base wall-clock timestamp produce
the same number of records, and every byte of every record outside the two
timestamp fields of the record header (bytes 0–7) is identical between the
two runs. -/
theorem claim_C5 (b1 b2 : Int) (r1 r2 : List (List Nat))
    (h1 : mainRecords b1 = some r1) (h2 : mainRecords b2 = some r2) :
    r1.length = r2.length ∧
      ∀ i, (r1.getD i []).drop 8 = (r2.getD i []).drop 8 := by
  have e1 := mainRecords_eq b1 r1 h1
  have e2 := mainRecords_eq b2 r2 h2
  subst e1
  subst e2
  refine ⟨by simp, ?_⟩
  intro i
  by_cases hi : i < 50
  · rw [getD_map_range _ i hi, getD_map_range _ i hi]
    rfl
  · rw [List.getD_eq_default _ _ (by simpa using Nat.le_of_not_lt hi),
      List.getD_eq_default _ _ (by simpa using Nat.le_of_not_lt hi)]

theorem claim_C5_witness :
    (((List.range 50).map (recBytes 1700000000)).getD 0 []).drop 8 =
      (((List.range 50).map (recBytes 42)).getD 0 []).drop 8 :=
  (claim_C5 1700000000 42 _ _
    (mainRecords_eq_of_range 1700000000 (by norm_num) (by norm_num))
    (mainRecords_eq_of_range 42 (by norm_num) (by norm_num))).2 0

/-- C6 (as written in the claim) is false: the difference between the last
record's capture timestamp and the first record's is 49 × 20000 µs =
980000 µs = 980 ms, not 50 × 20 ms = 1000 ms.  This counterexample
computes the difference for the concrete run with base timestamp
1700000000 and shows it is 980000 µs, not 1000000 µs. -/
theorem claim_C6_counterexample :
    mainRecords 1700000000 =
      some ((List.range 50).map (recBytes 1700000000)) ∧
    (readLE32 (((List.range 50).map (recBytes 1700000000)).getD 49 []) 0 *
          1000000 +
        readLE32 (((List.range 50).map (recBytes 1700000000)).getD 49 []) 4) -
      (readLE32 (((List.range 50).map (recBytes 1700000000)).getD 0 []) 0 *
          1000000 +
        readLE32 (((List.range 50).map (recBytes 1700000000)).getD 0 []) 4) =
      980000 ∧ (980000 : Nat) ≠ 1000000 := by
  refine ⟨mainRecords_eq_of_range 1700000000 (by norm_num) (by norm_num),
    ?_, by norm_num⟩
  rw [getD_map_range _ 49 (by norm_num), getD_map_range _ 0 (by norm_num),
    readLE32_rec_sec 1700000000 49, readLE32_rec_sec 1700000000 0,
    readLE32_rec_usec 1700000000 49, readLE32_rec_usec 1700000000 0]
  omega

/-- C6 (amended): the difference between the last record's capture
timestamp (seconds·10^6 + microseconds) and the first record's equals
49 × 20 ms = 980 ms of simulated elapsed time — the last of the 50
records starts 49 packet intervals after the first. -/
theorem claim_C6_amended (base : Int) (recs : List (List Nat))
    (h : mainRecords base = some recs) :
    (readLE32 (recs.getD 49 []) 0 * 1000000 +
        readLE32 (recs.getD 49 []) 4) -
      (readLE32 (recs.getD 0 []) 0 * 1000000 +
        readLE32 (recs.getD 0 []) 4) = 49 * 20000 := by
  have hr := mainRecords_eq base recs h
  subst hr
  rw [getD_map_range _ 49 (by norm_num), getD_map_range _ 0 (by norm_num),
    readLE32_rec_sec base 49, readLE32_rec_sec base 0,
    readLE32_rec_usec base 49, readLE32_rec_usec base 0]
  omega

theorem claim_C6_amended_witness :
    (readLE32 (((List.range 50).map (recBytes 1700000000)).getD 49 []) 0 *
          1000000 +
        readLE32 (((List.range 50).map (recBytes 1700000000)).getD 49 []) 4) -
      (readLE32 (((List.range 50).map (recBytes 1700000000)).getD 0 []) 0 *
          1000000 +
        readLE32 (((List.range 50).map (recBytes 1700000000)).getD 0 []) 4) =
      49 * 20000 :=
  claim_C6_amended 1700000000 _
    (mainRecords_eq_of_range 1700000000 (by norm_num) (by norm_num))

/-- C7: for every positive duration `d` (whole milliseconds) the payload
synthesizer returns `8000 * d / 1000` bytes (integer truncation), each
byte is the fixed function `g711aByte` of its position and lies in
`[0, 255]`, and the result is non-empty. -/
theorem claim_C7 (d : Nat) (hd : 0 < d) :
    (generate_g711a_audio d).length = 8000 * d / 1000 ∧
    (∀ b ∈ generate_g711a_audio d, b ≤ 255) ∧
    (∀ i, i < (generate_g711a_audio d).length →
      (generate_g711a_audio d).getD i 0 = g711aByte i) ∧
    generate_g711a_audio d ≠ [] := by
  refine ⟨by simp [generate_g711a_audio], ?_, ?_, ?_⟩
  · intro b hb
    simp only [generate_g711a_audio, List.mem_map] at hb
    obtain ⟨i, _, rfl⟩ := hb
    simp only [g711aByte, Nat.zero_max]
    exact Nat.min_le_left _ _
  · intro i hi
    rw [List.getD_eq_getElem _ _ hi]
    simp only [generate_g711a_audio] at hi ⊢
    simp
  · have hlen : 0 < (generate_g711a_audio d).length := by
      simp only [generate_g711a_audio, List.length_map, List.length_range]
      omega
    exact List.length_pos.mp hlen

theorem claim_C7_witness :
    (generate_g711a_audio 20).length = 8000 * 20 / 1000 ∧
      generate_g711a_audio 20 ≠ [] :=
  ⟨(claim_C7 20 (by norm_num)).1, (claim_C7 20 (by norm_num)).2.2.2⟩

/-- C8 (as written in the claim) is false: for a sequence number outside
the 16-bit range the builder does not wrap the value modulo 2^16 — Python's
`struct.pack('!H', ...)` raises `struct.error`, which the `Option` model
renders as `none`.  At the concrete input 65536 (which the claim says
succeeds with a wrapped field value of 0) the builder fails. -/
theorem claim_C8_counterexample :
    create_rtp_header 65536 0 0x12345678 = none := by decide

/-- C8 (amended): for in-range timestamp and synchronization identifier,
the builder succeeds exactly when the sequence number lies in
`[0, 65535]`, storing it verbatim in the 16-bit field; for any sequence
number outside that range it fails (raises) instead of wrapping. -/
theorem claim_C8_amended (seq ts ssrc : Int)
    (hts : 0 ≤ ts ∧ ts < 4294967296)
    (hssrc : 0 ≤ ssrc ∧ ssrc < 4294967296) :
    (0 ≤ seq ∧ seq < 65536 →
      create_rtp_header seq ts ssrc =
        some ([0x80, 8] ++ beB16 seq.toNat ++ beB32 ts.toNat ++
          beB32 ssrc.toNat) ∧
      readBE16 ([0x80, 8] ++ beB16 seq.toNat ++ beB32 ts.toNat ++
        beB32 ssrc.toNat) 2 = seq.toNat) ∧
    (¬(0 ≤ seq ∧ seq < 65536) → create_rtp_header seq ts ssrc = none) := by
  constructor
  · intro hseq
    have hpk : packBE16 seq = some (beB16 seq.toNat) := by
      simp [packBE16, hseq.1, hseq.2]
    have hpt : packBE32 ts = some (beB32 ts.toNat) := by
      simp [packBE32, hts.1, hts.2]
    have hps : packBE32 ssrc = some (beB32 ssrc.toNat) := by
      simp [packBE32, hssrc.1, hssrc.2]
    constructor
    · rw [create_rtp_header, show packB 0x80 = some [0x80] from by decide,
        show packB 8 = some [8] from by decide, hpk, hpt, hps]
      rfl
    · have hd : readBE16 ([0x80, 8] ++ beB16 seq.toNat ++ beB32 ts.toNat ++
          beB32 ssrc.toNat) 2 =
          256 * (seq.toNat / 256 % 256) + seq.toNat % 256 := rfl
      have hlt : seq.toNat < 65536 := by omega
      rw [hd]
      omega
  · intro hns
    rw [create_rtp_header, show packB 0x80 = some [0x80] from by decide,
      show packB 8 = some [8] from by decide, Option.some_bind,
      Option.some_bind, packBE16, if_neg hns]
    rfl

theorem claim_C8_amended_witness :
    create_rtp_header 1000 0 0x12345678 =
      some ([0x80, 8] ++ beB16 (Int.toNat 1000) ++ beB32 (Int.toNat 0) ++
        beB32 (Int.toNat 0x12345678)) :=
  ((claim_C8_amended 1000 0 0x12345678 ⟨by norm_num, by norm_num⟩
    ⟨by norm_num, by norm_num⟩).1 ⟨by norm_num, by norm_num⟩).1

/-- C9: every record of a run carries the same payload bytes: the frame
content after the four stacked headers (record offset 70) equals
`generate_g711a_audio 20` — the synthesizer output for the constant
duration 20 — in every one of the 50 records. -/
theorem claim_C9 (base : Int) (recs : List (List Nat))
    (h : mainRecords base = some recs) :
    ∀ r ∈ recs, r.drop 70 = generate_g711a_audio 20 := by
  have hr := mainRecords_eq base recs h
  subst hr
  intro r hrmem
  obtain ⟨s, _, rfl⟩ := List.mem_map.1 hrmem
  rfl

theorem claim_C9_witness :
    (recBytes 1700000000 7).drop 70 = generate_g711a_audio 20 :=
  claim_C9 1700000000 _
    (mainRecords_eq_of_range 1700000000 (by norm_num) (by norm_num))
    (recBytes 1700000000 7)
    (List.mem_map_of_mem _ (by decide))

/-- C10: for every record index `i < 50`, the record-header microseconds
field lies in `[0, 999999]` and equals `(i * 20000) % 10^6` (which is just
`i * 20000`, at most 980000, so no carry), and the seconds field equals
the run's base timestamp unchanged. -/
theorem claim_C10 (base : Int) (recs : List (List Nat))
    (h : mainRecords base = some recs) :
    ∀ i, i < 50 →
      readLE32 (recs.getD i []) 4 ≤ 999999 ∧
      readLE32 (recs.getD i []) 4 = i * 20000 % 1000000 ∧
      (readLE32 (recs.getD i []) 0 : Int) = base := by
  obtain ⟨hb0, hb1⟩ := mainRecords_base_range base recs h
  have hr := mainRecords_eq base recs h
  subst hr
  intro i hi
  rw [getD_map_range _ i hi, readLE32_rec_usec base i, readLE32_rec_sec base i,
    le32_decomp (i * 20000) (by omega), le32_decomp base.toNat (by omega)]
  refine ⟨by omega, by omega, Int.toNat_of_nonneg hb0⟩

theorem claim_C10_witness :
    readLE32 (((List.range 50).map (recBytes 1700000000)).getD 49 []) 4 =
      49 * 20000 % 1000000 :=
  ((claim_C10 1700000000 _
    (mainRecords_eq_of_range 1700000000 (by norm_num) (by norm_num))) 49
    (by norm_num)).2.1
